import Mathlib

/-!
Verification of the error taxonomy and cross-boundary error translation
subsystem of speedy-js/parcel-source-map
(src/parcel_sourcemap/src/sourcemap_error.rs).

The Rust code is shallowly embedded: the taxonomy enum, the error carrier,
the conversions from foreign error types, and the two host adapters
(napi and wasm) become plain Lean definitions; the host error objects are
modelled as structures carrying the rendered message string.
-/

/-- Errors that can occur during processing/modifying a source map.
Mirrors the Rust enum SourceMapErrorType, which is repr(u32) with
explicit discriminants (0 is reserved for OK). -/
inductive SourceMapErrorType where
  | UnexpectedNegativeNumber
  | UnexpectedlyBigNumber
  | VlqUnexpectedEof
  | VlqInvalidBase64
  | VlqOverflow
  | IOError
  | NameOutOfRange
  | SourceOutOfRange
  | BufferError
  | InvalidFilePath
  | FromUtf8Error
  deriving DecidableEq, Fintype

/-- The explicit repr(u32) discriminant of each variant, as written in the
source (UnexpectedNegativeNumber = 1 through FromUtf8Error = 11). -/
def SourceMapErrorType.toU32 : SourceMapErrorType → Nat
  | .UnexpectedNegativeNumber => 1
  | .UnexpectedlyBigNumber => 2
  | .VlqUnexpectedEof => 3
  | .VlqInvalidBase64 => 4
  | .VlqOverflow => 5
  | .IOError => 6
  | .NameOutOfRange => 7
  | .SourceOutOfRange => 8
  | .BufferError => 9
  | .InvalidFilePath => 10
  | .FromUtf8Error => 11

/-- The error carrier: struct SourceMapError \x7b error_type, reason: Option<String> \x7d. -/
structure SourceMapError where
  error_type : SourceMapErrorType
  reason : Option String
  deriving DecidableEq

/-- SourceMapError::new: build a carrier with no reason. -/
def SourceMapError.new (error_type : SourceMapErrorType) : SourceMapError :=
  { error_type := error_type, reason := none }

/-- SourceMapError::new_with_reason: build a carrier with an owned copy of
the borrowed reason string (String::from(reason)). -/
def SourceMapError.new_with_reason (error_type : SourceMapErrorType)
    (reason : String) : SourceMapError :=
  { error_type := error_type, reason := some reason }

namespace vlq

/-- The foreign failure type of the vlq decoder crate:
UnexpectedEof, InvalidBase64(u8), Overflow. The u8 payload of
InvalidBase64 is modelled as a Nat; the conversion below discards it, so
its range plays no role. -/
inductive Error where
  | UnexpectedEof
  | InvalidBase64 (b : Nat)
  | Overflow
  deriving DecidableEq

end vlq

/-- Foreign std::io::Error, modelled opaquely by an error-kind code and a
message; the conversion below ignores its argument entirely. -/
structure IoError where
  kind : Nat
  message : String
  deriving DecidableEq

namespace rkyv

/-- Foreign rkyv::Unreachable (the serialization layer's
invariant-violation failure), modelled opaquely; the conversion below
ignores its argument entirely. -/
inductive Unreachable where
  | mk
  deriving DecidableEq

end rkyv

namespace std

/-- Foreign std::string::FromUtf8Error: the bytes that failed to decode
plus the position up to which they were valid UTF-8; the conversion below
ignores its argument entirely. -/
structure FromUtf8Error where
  bytes : List Nat
  valid_up_to : Nat
  deriving DecidableEq

end std

/-- impl From<vlq::Error> for SourceMapError. -/
def SourceMapError.from_vlq : vlq.Error → SourceMapError
  | vlq.Error.UnexpectedEof => SourceMapError.new SourceMapErrorType.VlqUnexpectedEof
  | vlq.Error.InvalidBase64 _ => SourceMapError.new SourceMapErrorType.VlqInvalidBase64
  | vlq.Error.Overflow => SourceMapError.new SourceMapErrorType.VlqOverflow

/-- impl From<io::Error> for SourceMapError. -/
def SourceMapError.from_io_error (_err : IoError) : SourceMapError :=
  SourceMapError.new SourceMapErrorType.IOError

/-- impl From<rkyv::Unreachable> for SourceMapError. -/
def SourceMapError.from_rkyv_unreachable (_err : rkyv.Unreachable) : SourceMapError :=
  SourceMapError.new SourceMapErrorType.BufferError

/-- impl From<std::string::FromUtf8Error> for SourceMapError. -/
def SourceMapError.from_utf8_error (_err : std.FromUtf8Error) : SourceMapError :=
  SourceMapError.new SourceMapErrorType.FromUtf8Error

namespace napi

/-- The napi status passed to napi::Error::new; only GenericFailure is used
by this subsystem. -/
inductive Status where
  | Ok
  | GenericFailure
  deriving DecidableEq

/-- The native-host error object: napi::Error, modelled by its status and
its reason (message) string. -/
structure Error where
  status : Status
  reason : String
  deriving DecidableEq

/-- napi::Error::new. -/
def Error.new (status : Status) (reason : String) : Error :=
  { status := status, reason := reason }

end napi

/-- impl From<SourceMapError> for napi::Error (feature "native"): build the
message by pushing the fixed tag, the per-kind phrase, and the optional
", " + reason, then wrap it in a GenericFailure napi error. -/
def napiErrorFrom (err : SourceMapError) : napi.Error :=
  let reason := "[parcel-sourcemap] "
  let reason := reason ++
    (match err.error_type with
      | SourceMapErrorType.UnexpectedNegativeNumber => "Unexpected Negative Number"
      | SourceMapErrorType.UnexpectedlyBigNumber => "Unexpected Big Number"
      | SourceMapErrorType.VlqUnexpectedEof => "VLQ Unexpected end of file"
      | SourceMapErrorType.VlqInvalidBase64 => "VLQ Invalid Base 64 value"
      | SourceMapErrorType.VlqOverflow => "VLQ Value overflowed, does not fit in u32"
      | SourceMapErrorType.IOError => "IO Error"
      | SourceMapErrorType.NameOutOfRange => "Name out of range"
      | SourceMapErrorType.SourceOutOfRange => "Source out of range"
      | SourceMapErrorType.InvalidFilePath => "Invalid FilePath"
      | SourceMapErrorType.BufferError => "Something went wrong while writing/reading a sourcemap buffer"
      | SourceMapErrorType.FromUtf8Error => "Could not convert utf-8 array to string")
  let reason := match err.reason with
    | some r => reason ++ ", " ++ r
    | none => reason
  napi.Error.new napi.Status.GenericFailure reason

/-- The script-engine-host error object js_sys::Error, modelled by its
message string. -/
structure JsError where
  message : String
  deriving DecidableEq

/-- js_sys::Error::new. -/
def JsError.new (message : String) : JsError :=
  { message := message }

/-- wasm_bindgen::JsValue; the adapter only ever produces the variant
wrapping a js_sys::Error (via .into()). -/
inductive JsValue where
  | ofError (e : JsError)
  deriving DecidableEq

/-- The message carried by a JsValue produced by the wasm adapter. -/
def JsValue.message : JsValue → String
  | JsValue.ofError e => e.message

/-- impl From<SourceMapError> for wasm_bindgen::JsValue (feature "wasm"):
its own copy of the same message table, then wraps the string in a
js_sys::Error converted to a JsValue. -/
def wasmJsValueFrom (err : SourceMapError) : JsValue :=
  let reason := "[parcel-sourcemap] "
  let reason := reason ++
    (match err.error_type with
      | SourceMapErrorType.UnexpectedNegativeNumber => "Unexpected Negative Number"
      | SourceMapErrorType.UnexpectedlyBigNumber => "Unexpected Big Number"
      | SourceMapErrorType.VlqUnexpectedEof => "VLQ Unexpected end of file"
      | SourceMapErrorType.VlqInvalidBase64 => "VLQ Invalid Base 64 value"
      | SourceMapErrorType.VlqOverflow => "VLQ Value overflowed, does not fit in u32"
      | SourceMapErrorType.IOError => "IO Error"
      | SourceMapErrorType.NameOutOfRange => "Name out of range"
      | SourceMapErrorType.SourceOutOfRange => "Source out of range"
      | SourceMapErrorType.InvalidFilePath => "Invalid FilePath"
      | SourceMapErrorType.BufferError => "Something went wrong while writing/reading a sourcemap buffer"
      | SourceMapErrorType.FromUtf8Error => "Could not convert utf-8 array to string")
  let reason := match err.reason with
    | some r => reason ++ ", " ++ r
    | none => reason
  JsValue.ofError (JsError.new reason)

/-- Modelled from the spec: the phrase table of section 4.3, transcribed
from the spec text, to be compared with the tables embedded in the two
adapters above. -/
def specPhrase : SourceMapErrorType → String
  | SourceMapErrorType.UnexpectedNegativeNumber => "Unexpected Negative Number"
  | SourceMapErrorType.UnexpectedlyBigNumber => "Unexpected Big Number"
  | SourceMapErrorType.VlqUnexpectedEof => "VLQ Unexpected end of file"
  | SourceMapErrorType.VlqInvalidBase64 => "VLQ Invalid Base 64 value"
  | SourceMapErrorType.VlqOverflow => "VLQ Value overflowed, does not fit in u32"
  | SourceMapErrorType.IOError => "IO Error"
  | SourceMapErrorType.NameOutOfRange => "Name out of range"
  | SourceMapErrorType.SourceOutOfRange => "Source out of range"
  | SourceMapErrorType.InvalidFilePath => "Invalid FilePath"
  | SourceMapErrorType.BufferError => "Something went wrong while writing/reading a sourcemap buffer"
  | SourceMapErrorType.FromUtf8Error => "Could not convert utf-8 array to string"

/-- The optional reason suffix appended by both adapters: empty when no
reason is present, the separator ", " followed by the reason otherwise. -/
def optSuffix : Option String → String
  | none => ""
  | some s => ", " ++ s

lemma string_append_ne_empty_left (s t : String) (h : s ≠ "") : s ++ t ≠ "" := by
  obtain ⟨sd⟩ := s
  obtain ⟨td⟩ := t
  intro hc
  have hd : sd ++ td = ([] : List Char) := congrArg String.data hc
  rcases List.append_eq_nil.mp hd with ⟨h1, _⟩
  exact h (by rw [h1])

/-- C1: for every one of the 11 error kinds and any optional reason,
rendering in either host adapter produces a message that starts with the
tag "[parcel-sourcemap] " immediately followed by the kind-specific phrase
of the spec phrase table. -/
theorem render_starts_with_tag_and_phrase (k : SourceMapErrorType) (r : Option String) :
    (∃ s, (napiErrorFrom ⟨k, r⟩).reason = "[parcel-sourcemap] " ++ specPhrase k ++ s) ∧
    (∃ s, (wasmJsValueFrom ⟨k, r⟩).message = "[parcel-sourcemap] " ++ specPhrase k ++ s) := by
  constructor
  · cases r with
    | none => exact ⟨"", by cases k <;> rfl⟩
    | some a => exact ⟨", " ++ a, by cases k <;> rfl⟩
  · cases r with
    | none => exact ⟨"", by cases k <;> rfl⟩
    | some a => exact ⟨", " ++ a, by cases k <;> rfl⟩

/-- C2: for every kind and every reason string (including ""), rendering
the carrier built with a reason yields the no-reason message followed by
", " and the reason verbatim, in both adapters; and the no-reason message
never ends with the separator ", ". -/
theorem render_reason_suffix (k : SourceMapErrorType) (r : String) :
    (napiErrorFrom (SourceMapError.new_with_reason k r)).reason
      = (napiErrorFrom (SourceMapError.new k)).reason ++ ", " ++ r ∧
    (wasmJsValueFrom (SourceMapError.new_with_reason k r)).message
      = (wasmJsValueFrom (SourceMapError.new k)).message ++ ", " ++ r ∧
    ¬ List.IsSuffix (", ".data) ((napiErrorFrom (SourceMapError.new k)).reason).data ∧
    ¬ List.IsSuffix (", ".data) ((wasmJsValueFrom (SourceMapError.new k)).message).data := by
  refine ⟨?_, ?_, ?_, ?_⟩ <;> cases k <;> first | rfl | decide

/-- C3: for every kind and optional reason, the native-host adapter and the
script-engine-host adapter render exactly the same message text; only the
wrapping object type differs. -/
theorem render_host_independent (k : SourceMapErrorType) (r : Option String) :
    (napiErrorFrom ⟨k, r⟩).reason = (wasmJsValueFrom ⟨k, r⟩).message := by
  cases k <;> cases r <;> rfl

/-- C4: the conversion from the VLQ decoder's failure type is total over
its three variants, maps end-of-input to VlqUnexpectedEof, invalid base64
to VlqInvalidBase64 and overflow to VlqOverflow, always with no reason;
and rendering the converted end-of-input failure in the native host yields
exactly "[parcel-sourcemap] VLQ Unexpected end of file". -/
theorem vlq_conversion_total :
    (∀ e : vlq.Error, (SourceMapError.from_vlq e).reason = none) ∧
    SourceMapError.from_vlq vlq.Error.UnexpectedEof
      = ⟨SourceMapErrorType.VlqUnexpectedEof, none⟩ ∧
    (∀ b : Nat, SourceMapError.from_vlq (vlq.Error.InvalidBase64 b)
      = ⟨SourceMapErrorType.VlqInvalidBase64, none⟩) ∧
    SourceMapError.from_vlq vlq.Error.Overflow
      = ⟨SourceMapErrorType.VlqOverflow, none⟩ ∧
    (napiErrorFrom (SourceMapError.from_vlq vlq.Error.UnexpectedEof)).reason
      = "[parcel-sourcemap] VLQ Unexpected end of file" := by
  refine ⟨fun e => ?_, rfl, fun b => rfl, rfl, by decide⟩
  cases e <;> rfl

/-- C5: each of the three non-VLQ conversions is a total function mapping
every value of its foreign failure type to a carrier with no reason and
the single specified kind: I/O failures to IOError, serialization
invariant-violation failures to BufferError, invalid-UTF-8 failures to
FromUtf8Error. -/
theorem foreign_conversions_total :
    (∀ e : IoError, SourceMapError.from_io_error e
      = ⟨SourceMapErrorType.IOError, none⟩) ∧
    (∀ e : rkyv.Unreachable, SourceMapError.from_rkyv_unreachable e
      = ⟨SourceMapErrorType.BufferError, none⟩) ∧
    (∀ e : std.FromUtf8Error, SourceMapError.from_utf8_error e
      = ⟨SourceMapErrorType.FromUtf8Error, none⟩) :=
  ⟨fun _ => rfl, fun _ => rfl, fun _ => rfl⟩

/-- C6: the 11 kinds carry the explicit non-zero u32 identities 1 through
11 in spec taxonomy order, and 0 is never the identity of any kind. -/
theorem discriminants_stable_nonzero :
    SourceMapErrorType.toU32 SourceMapErrorType.UnexpectedNegativeNumber = 1 ∧
    SourceMapErrorType.toU32 SourceMapErrorType.UnexpectedlyBigNumber = 2 ∧
    SourceMapErrorType.toU32 SourceMapErrorType.VlqUnexpectedEof = 3 ∧
    SourceMapErrorType.toU32 SourceMapErrorType.VlqInvalidBase64 = 4 ∧
    SourceMapErrorType.toU32 SourceMapErrorType.VlqOverflow = 5 ∧
    SourceMapErrorType.toU32 SourceMapErrorType.IOError = 6 ∧
    SourceMapErrorType.toU32 SourceMapErrorType.NameOutOfRange = 7 ∧
    SourceMapErrorType.toU32 SourceMapErrorType.SourceOutOfRange = 8 ∧
    SourceMapErrorType.toU32 SourceMapErrorType.BufferError = 9 ∧
    SourceMapErrorType.toU32 SourceMapErrorType.InvalidFilePath = 10 ∧
    SourceMapErrorType.toU32 SourceMapErrorType.FromUtf8Error = 11 ∧
    (∀ k : SourceMapErrorType, SourceMapErrorType.toU32 k ≠ 0) := by
  decide

/-- C7: the constructors are infallible data construction: new k has kind k
and no reason; new_with_reason k r has kind k and reason exactly r. -/
theorem constructors_shape (k : SourceMapErrorType) (r : String) :
    SourceMapError.new k = ⟨k, none⟩ ∧
    SourceMapError.new_with_reason k r = ⟨k, some r⟩ :=
  ⟨rfl, rfl⟩

/-- C8: for every carrier, the rendered message (in either adapter) is
non-empty and is exactly the tag, the per-kind phrase, and, when a reason
is present, the separator ", " followed by the reason text, nothing else. -/
theorem render_message_shape (k : SourceMapErrorType) (r : Option String) :
    (napiErrorFrom ⟨k, r⟩).reason ≠ "" ∧
    (napiErrorFrom ⟨k, r⟩).reason
      = "[parcel-sourcemap] " ++ specPhrase k ++ optSuffix r ∧
    (wasmJsValueFrom ⟨k, r⟩).message ≠ "" ∧
    (wasmJsValueFrom ⟨k, r⟩).message
      = "[parcel-sourcemap] " ++ specPhrase k ++ optSuffix r := by
  have htag : ("[parcel-sourcemap] " : String) ≠ "" := by decide
  have h1 : (napiErrorFrom ⟨k, r⟩).reason
      = "[parcel-sourcemap] " ++ specPhrase k ++ optSuffix r := by
    cases k <;> cases r <;> rfl
  have h2 : (wasmJsValueFrom ⟨k, r⟩).message
      = "[parcel-sourcemap] " ++ specPhrase k ++ optSuffix r := by
    cases k <;> cases r <;> rfl
  refine ⟨?_, h1, ?_, h2⟩
  · rw [h1]
    exact string_append_ne_empty_left _ _ (string_append_ne_empty_left _ _ htag)
  · rw [h2]
    exact string_append_ne_empty_left _ _ (string_append_ne_empty_left _ _ htag)

/-- C9: the VLQ conversion discards the offending byte of an invalid-base64
failure: any two such failures convert to identical carriers of kind
VlqInvalidBase64 with no reason, revealing nothing about the byte. -/
theorem invalid_base64_byte_oblivious (b1 b2 : Nat) :
    SourceMapError.from_vlq (vlq.Error.InvalidBase64 b1)
      = SourceMapError.from_vlq (vlq.Error.InvalidBase64 b2) ∧
    SourceMapError.from_vlq (vlq.Error.InvalidBase64 b1)
      = ⟨SourceMapErrorType.VlqInvalidBase64, none⟩ :=
  ⟨rfl, rfl⟩

/-- C10: the per-kind phrases are pairwise distinct, so for any two
distinct kinds the no-reason carriers render to different messages in each
adapter, and the kind can be recovered from the message text. -/
theorem render_injective_on_kinds (k1 k2 : SourceMapErrorType) (h : k1 ≠ k2) :
    (napiErrorFrom (SourceMapError.new k1)).reason
      ≠ (napiErrorFrom (SourceMapError.new k2)).reason ∧
    (wasmJsValueFrom (SourceMapError.new k1)).message
      ≠ (wasmJsValueFrom (SourceMapError.new k2)).message := by
  revert h
  revert k2
  revert k1
  decide

/-- C10 witness: two concrete distinct kinds render to distinct messages. -/
theorem render_injective_on_kinds_witness :
    (napiErrorFrom (SourceMapError.new SourceMapErrorType.IOError)).reason
      ≠ (napiErrorFrom (SourceMapError.new SourceMapErrorType.BufferError)).reason ∧
    (wasmJsValueFrom (SourceMapError.new SourceMapErrorType.IOError)).message
      ≠ (wasmJsValueFrom (SourceMapError.new SourceMapErrorType.BufferError)).message :=
  render_injective_on_kinds SourceMapErrorType.IOError SourceMapErrorType.BufferError
    (by decide)
